import Mathlib

/-!
Verification of the qwen_tts Home Assistant custom component
(`custom_components/qwen_tts/{tts,const,config_flow}.py`) against its
natural-language specification.

The Python code is shallowly embedded: each relevant function of `tts.py` is
translated to a pure Lean function.  Network I/O is modelled by passing the
remote server's responses in explicitly (a `Server` record of responses and
a list of received frames), and each run additionally returns the trace of
requests the code would issue, so that ordering properties ("fails before any
preview call") are statable.  JSON decoding (`json.loads`, `resp.json()`) is
modelled by supplying the decoded `Json` value (`none`/failure for malformed
input), mirroring the behaviour of the external decoder.

Python string primitives are modelled over `String.data` (the underlying
character list) so that every definition evaluates inside the kernel.
-/

namespace QwenTTS

/-- Python `s.strip()`: drop whitespace from both ends. -/
def pyStrip (s : String) : String :=
  ⟨((s.data.dropWhile Char.isWhitespace).reverse.dropWhile Char.isWhitespace).reverse⟩

/-- Python `s[:n]` on a string (slice of the first `n` characters). -/
def pySlice (n : Nat) (s : String) : String :=
  ⟨s.data.take n⟩

/-- Python `s.startswith(p)`. -/
def pyStartsWith (s p : String) : Bool :=
  p.data.isPrefixOf s.data

/-- Python `s.rstrip(c)` for a single strip character. -/
def pyRStrip (c : Char) (s : String) : String :=
  ⟨(s.data.reverse.dropWhile (fun a => a == c)).reverse⟩

/-- Python `s.lstrip(c)` for a single strip character. -/
def pyLStrip (c : Char) (s : String) : String :=
  ⟨s.data.dropWhile (fun a => a == c)⟩

/-- Python `s.lower()` (ASCII, which covers URL schemes). -/
def pyLower (s : String) : String :=
  ⟨s.data.map Char.toLower⟩

/-- JSON values as produced by Python's `json.loads` (numbers restricted to
integers, which suffices for every value this component inspects). -/
inductive Json where
  | null
  | bool (b : Bool)
  | num (n : Int)
  | str (s : String)
  | arr (items : List Json)
  | obj (fields : List (String × Json))

/-- Python `dict.get` on a decoded JSON object, modelled on an association
list with distinct keys (first match). -/
def jsonLookup : List (String × Json) → String → Option Json
  | [], _ => none
  | (k, v) :: rest, key => if k = key then some v else jsonLookup rest key

/-- Python truthiness of a decoded JSON value (`bool(x)`). -/
def jsonTruthy : Json → Bool
  | .null => false
  | .bool b => b
  | .num n => decide (n ≠ 0)
  | .str s => !s.data.isEmpty
  | .arr items => !items.isEmpty
  | .obj fields => !fields.isEmpty

/-- The configuration record held by `QwenTTSEntity.__init__`
(`tts.py` lines 87-100): `base_url` is required (stored with trailing
slashes stripped by the caller), the rest are optional entry data. -/
structure ConfigRecord where
  base_url : String
  voice_id : Option String
  session_id : Option String
  reference_audio_url : Option String
  reference_transcription : Option String
  voice_name : Option String
deriving Repr, DecidableEq

/-- Python `x or ""` on an optional string. -/
def orEmpty : Option String → String
  | none => ""
  | some s => s

/-- Python truthiness of an optional string (`None` and `""` are falsy). -/
def optTruthy : Option String → Bool
  | none => false
  | some s => !s.data.isEmpty

/-- The four backend interaction modes. -/
inductive Mode where
  | SavedVoice (voice_id : String)
  | EstablishedSession (session_id : String)
  | AdHocReference
  | AutoSelect
deriving Repr, DecidableEq

/-- Mode resolution: the if/elif chain at the top of
`QwenTTSEntity.async_get_tts_audio` (`tts.py` lines 263-278).
`voice_id` is read through `(self._voice_id or "").strip()`; the other two
fields are plain truthiness tests. -/
def resolveMode (r : ConfigRecord) : Mode :=
  let voice_id := pyStrip (orEmpty r.voice_id)
  if voice_id ≠ "" then
    Mode.SavedVoice voice_id
  else if optTruthy r.session_id then
    Mode.EstablishedSession (orEmpty r.session_id)
  else if optTruthy r.reference_audio_url then
    Mode.AdHocReference
  else
    Mode.AutoSelect

/-- Names bound at module level in `const.py` (its complete, closed list of
top-level assignments, lines 1-17). -/
def constModuleNames : List String :=
  ["DOMAIN", "CONF_BASE_URL", "CONF_REFERENCE_AUDIO_URL",
   "CONF_REFERENCE_TRANSCRIPTION", "CONF_VOICE_NAME", "CONF_VOICE_ID",
   "HEALTH_TIMEOUT_SECONDS", "DOWNLOAD_TIMEOUT_SECONDS",
   "PREVIEW_TIMEOUT_SECONDS", "DEFAULT_LANGUAGE"]

/-- Names `tts.py` imports from `.const` (lines 21-32). -/
def ttsConstImports : List String :=
  ["CONF_BASE_URL", "CONF_REFERENCE_AUDIO_URL", "CONF_REFERENCE_TRANSCRIPTION",
   "CONF_SESSION_ID", "CONF_VOICE_ID", "CONF_VOICE_NAME", "DEFAULT_LANGUAGE",
   "DOWNLOAD_TIMEOUT_SECONDS", "PREVIEW_TIMEOUT_SECONDS", "DOMAIN"]

/-- Names `config_flow.py` imports from `.const` (lines 16-25). -/
def configFlowConstImports : List String :=
  ["CONF_BASE_URL", "CONF_REFERENCE_AUDIO_URL", "CONF_REFERENCE_TRANSCRIPTION",
   "CONF_SESSION_ID", "CONF_VOICE_ID", "CONF_VOICE_NAME", "DOMAIN",
   "HEALTH_TIMEOUT_SECONDS"]

/-- A Python `from M import a, b, ...` statement succeeds exactly when every
imported name is bound in module M; otherwise it raises ImportError. -/
def importsResolve (imports bound : List String) : Bool :=
  imports.all (fun n => bound.contains n)

/-- An HTTP response as observed through aiohttp: status code, payload
(`resp.text()` and `resp.read()` both expose the payload; it is kept as one
string of characters), and the optional Content-Type header. -/
structure HttpResp where
  status : Nat
  body : String
  contentType : Option String
deriving Repr, DecidableEq

/-- The distinct `HomeAssistantError` raises of `tts.py`, one constructor per
`raise` site, carrying the data interpolated into the message. -/
inductive TTSError where
  | voiceNotFound (voice_id : String) (detail : String)
  | previewFromVoiceFailed (status : Nat) (detail : String)
  | listVoicesFailed (status : Nat) (detail : String)
  | noSavedVoices
  | noUsableVoiceId
  | missingReference
  | referenceDownloadFailed (status : Nat)
  | previewFailed (status : Nat) (detail : String)
  | invalidScheme (scheme : String)
  | missingAudioUrl
  | backendErr (data : Option Json)
  | wsClosed
  | wsErrorRaised
  | audioDownloadFailed (status : Nat) (detail : String)
  | timedOut
  | attributeError
  | starved

/-- Python `str()` of a decoded JSON value, shallowly (composite values are
abbreviated; only the scalar cases are ever compared in this development). -/
def pyStr : Option Json → String
  | none => "None"
  | some .null => "None"
  | some (.bool true) => "True"
  | some (.bool false) => "False"
  | some (.num n) => toString n
  | some (.str s) => s
  | some (.arr _) => "[..]"
  | some (.obj _) => "dict(..)"

/-- The message of each `HomeAssistantError` raised by `tts.py`, as written
at the corresponding `raise` site. -/
def errMsg : TTSError → String
  | .voiceNotFound vid d =>
      "Saved voice not found (voice_id=" ++ vid ++ "): " ++ d
  | .previewFromVoiceFailed st d =>
      "Preview-from-voice failed (HTTP " ++ toString st ++ "): " ++ d
  | .listVoicesFailed st d =>
      "Unable to list saved voices (HTTP " ++ toString st ++ "): " ++ d
  | .noSavedVoices =>
      "No saved voices found on server. Create one first, or configure a voice_id/session_id/reference_audio_url."
  | .noUsableVoiceId =>
      "Saved voices list did not include a usable voice_id."
  | .missingReference =>
      "No session_id configured and no reference_audio_url available."
  | .referenceDownloadFailed st =>
      "Failed to download reference audio (HTTP " ++ toString st ++ ")."
  | .previewFailed st d =>
      "Preview failed (HTTP " ++ toString st ++ "): " ++ d
  | .invalidScheme s =>
      "Invalid base URL scheme: " ++ s
  | .missingAudioUrl =>
      "tts_complete missing audio_url"
  | .backendErr d =>
      "Backend error: " ++ pyStr d
  | .wsClosed =>
      "WebSocket closed before completion"
  | .wsErrorRaised =>
      "WebSocket error"
  | .audioDownloadFailed st d =>
      "Audio download failed (HTTP " ++ toString st ++ "): " ++ d
  | .timedOut =>
      "Timed out waiting for TTS audio"
  | .attributeError =>
      "AttributeError"
  | .starved =>
      "model artifact: finite frame source exhausted"

/-- Timeout constants from `const.py` lines 13-15. -/
def HEALTH_TIMEOUT_SECONDS : Int := 10

def DOWNLOAD_TIMEOUT_SECONDS : Int := 30

def PREVIEW_TIMEOUT_SECONDS : Int := 0

/-- The guard of `_maybe_timeout` (`tts.py` line 57):
`if seconds and seconds > 0` — a bound is imposed exactly when this Python
condition is truthy (zero is falsy; non-zero values are then compared). -/
def timeoutActive (seconds : Int) : Bool :=
  if seconds = 0 then false else decide (seconds > 0)

/-- Timed semantics of `async with _maybe_timeout(seconds): body`, with the
body's running time given abstractly: the body is aborted with TimeoutError
exactly when a bound is active and the duration exceeds it (the contract of
`asyncio.timeout`, the external library `_maybe_timeout` wraps). -/
def timesOut (seconds duration : Int) : Bool :=
  timeoutActive seconds && decide (duration > seconds)

/-- Response handling of `_async_generate_preview_saved_voice`
(`tts.py` lines 102-121): 404 is reported as a missing saved voice, any
other non-200 status as a preview-from-voice failure carrying the status
and the first 200 characters of the body; 200 yields the body. -/
def savedVoicePreview (voice_id : String) (resp : HttpResp) :
    Except TTSError String :=
  if resp.status = 404 then
    .error (.voiceNotFound voice_id (pySlice 200 resp.body))
  else if resp.status ≠ 200 then
    .error (.previewFromVoiceFailed resp.status (pySlice 200 resp.body))
  else
    .ok resp.body

/-- URL resolution in `_async_download_audio` (`tts.py` lines 247-249):
absolute http(s) URLs are used directly, anything else is joined onto
`base_url`.  `urljoin` is applied to a base ending in "/" and a relative
reference with no leading "/"; for such inputs (no scheme, no dot segments)
it concatenates, which is how it is modelled. -/
def resolveAudioUrl (base_url audio_url : String) : String :=
  if pyStartsWith audio_url "http://" || pyStartsWith audio_url "https://" then
    audio_url
  else
    pyRStrip '/' base_url ++ "/" ++ pyLStrip '/' audio_url

/-- Characters permitted in a URL scheme after the leading letter. -/
def isSchemeChar (c : Char) : Bool :=
  c.isAlphanum || c == '+' || c == '-' || c == '.'

/-- `urllib.parse.urlparse(url).scheme`: the lower-cased text before the
first ":" when it is non-empty, starts with a letter and contains only
scheme characters; otherwise the empty string. -/
def urlScheme (url : String) : String :=
  if url.data.contains ':' then
    let p : List Char := url.data.takeWhile (fun c => c != ':')
    if !p.isEmpty && (p.headD 'a').isAlpha && p.all isSchemeChar then
      pyLower ⟨p⟩
    else ""
  else ""

/-- `_ws_url_from_http` (`tts.py` lines 42-52): map scheme http to ws and
https to wss, reject any other scheme before any network call, then join the
path.  `parsed._replace(scheme=s).geturl()` is modelled by replacing the
scheme-length character prefix of the URL with the new scheme. -/
def wsUrlFromHttp (base_url path : String) : Except TTSError String :=
  let scheme := urlScheme base_url
  if scheme = "https" then
    let base_ws := "wss" ++ ⟨base_url.data.drop scheme.data.length⟩
    .ok (pyRStrip '/' base_ws ++ "/" ++ pyLStrip '/' path)
  else if scheme = "http" then
    let base_ws := "ws" ++ ⟨base_url.data.drop scheme.data.length⟩
    .ok (pyRStrip '/' base_ws ++ "/" ++ pyLStrip '/' path)
  else
    .error (.invalidScheme scheme)

/-- The scan over the voices list in `_async_get_default_voice_id`
(`tts.py` lines 147-151): the first dict entry whose `voice_id` is a string
with non-empty strip is returned, stripped. -/
def firstUsableVoiceId : List Json → Option String
  | [] => none
  | .obj fields :: rest =>
    (match jsonLookup fields "voice_id" with
     | some (.str vid) =>
         if pyStrip vid ≠ "" then some (pyStrip vid)
         else firstUsableVoiceId rest
     | _ => firstUsableVoiceId rest)
  | _ :: rest => firstUsableVoiceId rest

/-- Payload handling of `_async_get_default_voice_id` after a 200 response
(`tts.py` lines 141-155): a payload that is not a dict with a non-empty
`voices` list fails with the "no saved voices" error; a list without a
usable entry fails with the "no usable voice_id" error. -/
def defaultVoiceIdFromPayload (payload : Json) : Except TTSError String :=
  let voices : Option Json :=
    match payload with
    | .obj fields => jsonLookup fields "voices"
    | _ => none
  match voices with
  | some (.arr items) =>
    if items.isEmpty then .error .noSavedVoices
    else
      match firstUsableVoiceId items with
      | some vid => .ok vid
      | none => .error .noUsableVoiceId
  | _ => .error .noSavedVoices

/-- A frame delivered by `ws.receive()`.  A TEXT frame carries the
`json.loads` result of its payload (`none` when the payload is malformed and
the decoder raises JSONDecodeError); `other` stands for every frame type the
loop matches against none of its checks (BINARY, PING, PONG, ...);
`close` stands for CLOSE and CLOSED; `wsError` for ERROR. -/
inductive WSFrame where
  | text (parsed : Option Json)
  | other
  | close
  | wsError

/-- The outcome that terminates the receive loop of
`_async_generate_preview` (`tts.py` lines 218-241). -/
inductive LoopOutcome where
  | complete (audio_url : String)
  | missingAudioUrl
  | backendError (data : Option Json)
  | closedBeforeCompletion
  | wsErrorFrame
  | attributeError
  | starved

/-- What one loop iteration does with one frame: read another frame, or
terminate with an outcome. -/
inductive LoopStep where
  | next
  | stop (o : LoopOutcome)

/-- One iteration of the receive loop on one frame (`tts.py` lines 219-241).
A malformed TEXT frame is skipped (`except json.JSONDecodeError: continue`);
a decoded dict with type "tts_complete" resolves when
`parsed.get("data") or dict()` holds a non-empty string `audio_url` and
raises "tts_complete missing audio_url" otherwise; type "error" raises with
the frame's `data` field; any other decoded dict falls through every check
and the loop continues; a decoded non-dict raises AttributeError at
`parsed.get`; CLOSE/CLOSED and ERROR frames raise; all other frame types
fall through and the loop continues. -/
def frameStep : WSFrame → LoopStep
  | .text none => .next
  | .text (some parsed) =>
    (match parsed with
     | .obj fields =>
       (match jsonLookup fields "type" with
        | some (.str t) =>
          if t = "tts_complete" then
            let data : Json :=
              match jsonLookup fields "data" with
              | some j => if jsonTruthy j then j else .obj []
              | none => .obj []
            (match data with
             | .obj dfields =>
               (match jsonLookup dfields "audio_url" with
                | some (.str s) =>
                    if s.data.isEmpty then .stop .missingAudioUrl
                    else .stop (.complete s)
                | _ => .stop .missingAudioUrl)
             | _ => .stop .attributeError)
          else if t = "error" then
            .stop (.backendError (jsonLookup fields "data"))
          else .next
        | _ => .next)
     | _ => .stop .attributeError)
  | .close => .stop .closedBeforeCompletion
  | .wsError => .stop .wsErrorFrame
  | .other => .next

/-- The receive loop over the delivered frames.  The real loop blocks
forever on an exhausted frame source; an exhausted list is mapped to the
artificial outcome `starved`, which no claim relies on. -/
def recvLoop : List WSFrame → LoopOutcome
  | [] => .starved
  | f :: rest =>
    match frameStep f with
    | .next => recvLoop rest
    | .stop o => o

/-- Mapping each loop outcome to the result of `_async_generate_preview`:
a completion resolves with the audio URL, everything else raises the
corresponding `HomeAssistantError`. -/
def loopResult : LoopOutcome → Except TTSError String
  | .complete u => .ok u
  | .missingAudioUrl => .error .missingAudioUrl
  | .backendError d => .error (.backendErr d)
  | .closedBeforeCompletion => .error .wsClosed
  | .wsErrorFrame => .error .wsErrorRaised
  | .attributeError => .error .attributeError
  | .starved => .error .starved

/-- The multipart form POSTed to `/preview` by
`_async_generate_preview_http` (`tts.py` lines 183-191). -/
structure AdHocForm where
  audioBytes : String
  audioFilename : String
  audioContentType : String
  transcription : String
  response_text : String
deriving Repr, DecidableEq

/-- A network request issued by a synthesize call, in order. -/
inductive Request where
  | postPreviewFromVoice (voice_id : String) (response_text : String)
  | getVoices
  | getReferenceAudio (url : String)
  | postPreview (form : AdHocForm)
  | wsConnect (url : String) (payload : Json)
  | getAudio (url : String)

/-- The remote server's behaviour, supplied as the response each request
would receive.  `voicesJson` is the decoded body of the 200 `/voices`
response. -/
structure Server where
  previewFromVoiceResp : String → String → HttpResp
  voicesResp : HttpResp
  voicesJson : Json
  refAudioResp : String → HttpResp
  previewResp : HttpResp
  wsFrames : List WSFrame
  audioResp : String → HttpResp

/-- `resp.headers.get("Content-Type") or "audio/wav"`
(`tts.py` line 170). -/
def contentTypeOr : Option String → String
  | none => "audio/wav"
  | some ct => if ct.data.isEmpty then "audio/wav" else ct

/-- `_async_get_default_voice_id` (`tts.py` lines 123-155): a non-200
`/voices` response fails with the status and truncated body, otherwise the
decoded payload is scanned. -/
def getDefaultVoiceId (srv : Server) : Except TTSError String :=
  if srv.voicesResp.status ≠ 200 then
    .error (.listVoicesFailed srv.voicesResp.status (pySlice 200 srv.voicesResp.body))
  else defaultVoiceIdFromPayload srv.voicesJson

/-- `_async_download_reference_audio` (`tts.py` lines 157-171): requires a
truthy `reference_audio_url`, then GETs it; non-200 fails with the status;
200 yields the payload and its Content-Type (defaulted to audio/wav). -/
def downloadReferenceAudio (r : ConfigRecord) (srv : Server) :
    List Request × Except TTSError (String × String) :=
  if optTruthy r.reference_audio_url = false then
    ([], .error .missingReference)
  else
    let url := orEmpty r.reference_audio_url
    let resp := srv.refAudioResp url
    ([.getReferenceAudio url],
      if resp.status ≠ 200 then .error (.referenceDownloadFailed resp.status)
      else .ok (resp.body, contentTypeOr resp.contentType))

/-- The warning logged by `_async_generate_preview_http` when the stripped
transcription is empty (`tts.py` lines 176-179). -/
def noTranscriptionWarning : String :=
  "No reference_transcription configured; proceeding without it. If the backend rejects the request or voice quality is poor, set reference_transcription or configure a session_id."

/-- `_async_generate_preview_http` (`tts.py` lines 173-202): strip the
configured transcription, warn (not fail) when it is empty, download the
reference audio, POST the multipart form to `/preview`, fail on non-200
with the status and truncated body, return the payload on 200.  Returns
(warnings, requests issued, result). -/
def generatePreviewHttp (r : ConfigRecord) (message : String) (srv : Server) :
    List String × List Request × Except TTSError String :=
  let transcription := pyStrip (orEmpty r.reference_transcription)
  let warnings := if transcription = "" then [noTranscriptionWarning] else []
  match downloadReferenceAudio r srv with
  | (reqs, .error e) => (warnings, reqs, .error e)
  | (reqs, .ok (refBytes, ct)) =>
    let form : AdHocForm :=
      { audioBytes := refBytes, audioFilename := "reference.wav",
        audioContentType := ct, transcription := transcription,
        response_text := message }
    let resp := srv.previewResp
    (warnings, reqs ++ [.postPreview form],
      if resp.status ≠ 200 then
        .error (.previewFailed resp.status (pySlice 200 resp.body))
      else .ok resp.body)

/-- `_async_generate_preview` (`tts.py` lines 204-243): derive the ws URL
(a configuration error aborts before any connection), connect, send the
generate_preview payload, then run the receive loop.
`PREVIEW_TIMEOUT_SECONDS` is 0, so `_maybe_timeout` imposes no bound and
the TimeoutError handler of line 242 is unreachable. -/
def generatePreview (r : ConfigRecord) (message session_id : String)
    (srv : Server) : List Request × Except TTSError String :=
  match wsUrlFromHttp r.base_url "/ws" with
  | .error e => ([], .error e)
  | .ok wsUrl =>
    let payload : Json :=
      .obj [("type", .str "generate_preview"),
            ("data", .obj [("session_id", .str session_id),
                           ("text", .str message)])]
    ([.wsConnect wsUrl payload], loopResult (recvLoop srv.wsFrames))

/-- `_async_download_audio` (`tts.py` lines 245-258): resolve the audio URL
against `base_url`, GET it, fail on non-200 with the status and truncated
body, return the payload on 200. -/
def downloadAudio (r : ConfigRecord) (audio_url : String) (srv : Server) :
    List Request × Except TTSError String :=
  let absolute := resolveAudioUrl r.base_url audio_url
  let resp := srv.audioResp absolute
  ([.getAudio absolute],
    if resp.status ≠ 200 then
      .error (.audioDownloadFailed resp.status (pySlice 200 resp.body))
    else .ok resp.body)

/-- The observable outcome of one `async_get_tts_audio` call: the warnings
logged, the requests issued in order, the result ((format, audio) on
success, the raised error otherwise), and the configuration fields of the
instance after the call. -/
structure SynthOutcome where
  warnings : List String
  requests : List Request
  result : Except TTSError (String × String)
  record : ConfigRecord

/-- `QwenTTSEntity.async_get_tts_audio` (`tts.py` lines 260-280): dispatch
on the resolved mode; SavedVoice POSTs preview-from-voice directly;
EstablishedSession runs the ws exchange then downloads the audio;
AdHocReference runs the HTTP preview; AutoSelect looks up a default voice
then re-enters the SavedVoice protocol.  The method only reads the
configuration fields, so the post-call record is the input record. -/
def asyncGetTtsAudio (r : ConfigRecord) (message : String) (srv : Server) :
    SynthOutcome :=
  match resolveMode r with
  | Mode.SavedVoice voice_id =>
    { warnings := [],
      requests := [.postPreviewFromVoice voice_id message],
      result := (savedVoicePreview voice_id
          (srv.previewFromVoiceResp voice_id message)).map (fun b => ("wav", b)),
      record := r }
  | Mode.EstablishedSession session_id =>
    (match generatePreview r message session_id srv with
     | (reqs, .error e) =>
       { warnings := [], requests := reqs, result := .error e, record := r }
     | (reqs, .ok audio_url) =>
       (match downloadAudio r audio_url srv with
        | (reqs2, .error e) =>
          { warnings := [], requests := reqs ++ reqs2,
            result := .error e, record := r }
        | (reqs2, .ok bytes) =>
          { warnings := [], requests := reqs ++ reqs2,
            result := .ok ("wav", bytes), record := r }))
  | Mode.AdHocReference =>
    (match generatePreviewHttp r message srv with
     | (ws, reqs, .error e) =>
       { warnings := ws, requests := reqs, result := .error e, record := r }
     | (ws, reqs, .ok bytes) =>
       { warnings := ws, requests := reqs,
         result := .ok ("wav", bytes), record := r })
  | Mode.AutoSelect =>
    (match getDefaultVoiceId srv with
     | .error e =>
       { warnings := [], requests := [.getVoices],
         result := .error e, record := r }
     | .ok voice_id =>
       { warnings := [],
         requests := [.getVoices, .postPreviewFromVoice voice_id message],
         result := (savedVoicePreview voice_id
             (srv.previewFromVoiceResp voice_id message)).map
               (fun b => ("wav", b)),
         record := r })

/-- C1: each synthesize call selects exactly one mode by the fixed priority
order, evaluated fresh on the current record: non-empty trimmed `voice_id`
gives SavedVoice (regardless of every other field); else a truthy
`session_id` gives EstablishedSession; else a truthy `reference_audio_url`
gives AdHocReference; else AutoSelect. -/
theorem resolveMode_priority (r : ConfigRecord) :
    (pyStrip (orEmpty r.voice_id) ≠ "" →
        resolveMode r = Mode.SavedVoice (pyStrip (orEmpty r.voice_id))) ∧
    (pyStrip (orEmpty r.voice_id) = "" → optTruthy r.session_id = true →
        resolveMode r = Mode.EstablishedSession (orEmpty r.session_id)) ∧
    (pyStrip (orEmpty r.voice_id) = "" → optTruthy r.session_id = false →
        optTruthy r.reference_audio_url = true →
        resolveMode r = Mode.AdHocReference) ∧
    (pyStrip (orEmpty r.voice_id) = "" → optTruthy r.session_id = false →
        optTruthy r.reference_audio_url = false →
        resolveMode r = Mode.AutoSelect) := by
  unfold resolveMode
  refine ⟨?_, ?_, ?_, ?_⟩ <;> intros <;> simp_all

/-- Witness for `resolveMode_priority`: a record with a non-empty `voice_id`
and every other identifying field also set resolves to SavedVoice. -/
theorem resolveMode_priority_witness :
    resolveMode
      { base_url := "http://h", voice_id := some "v", session_id := some "s",
        reference_audio_url := some "u", reference_transcription := some "t",
        voice_name := some "n" } = Mode.SavedVoice "v" := by
  have h := (resolveMode_priority
      { base_url := "http://h", voice_id := some "v", session_id := some "s",
        reference_audio_url := some "u", reference_transcription := some "t",
        voice_name := some "n" }).1 (by decide)
  have e : pyStrip (orEmpty (some "v")) = "v" := by decide
  rw [e] at h
  exact h

/-- C2: the from-imports of `tts.py` and `config_flow.py` against the names
actually bound in `const.py`.  `CONF_SESSION_ID` is imported by both modules
but is not bound in `const.py` (it is the only unresolved name), so both
module imports raise ImportError at load time. -/
theorem const_session_id_import_fails :
    importsResolve ttsConstImports constModuleNames = false ∧
    importsResolve configFlowConstImports constModuleNames = false ∧
    "CONF_SESSION_ID" ∈ ttsConstImports ∧
    "CONF_SESSION_ID" ∈ configFlowConstImports ∧
    "CONF_SESSION_ID" ∉ constModuleNames ∧
    ttsConstImports.filter (fun n => !constModuleNames.contains n) =
      ["CONF_SESSION_ID"] ∧
    configFlowConstImports.filter (fun n => !constModuleNames.contains n) =
      ["CONF_SESSION_ID"] := by
  decide

theorem recvLoop_cons_next (f : WSFrame) (rest : List WSFrame)
    (h : frameStep f = LoopStep.next) :
    recvLoop (f :: rest) = recvLoop rest := by
  simp [recvLoop, h]

theorem recvLoop_cons_stop (f : WSFrame) (rest : List WSFrame) (o : LoopOutcome)
    (h : frameStep f = LoopStep.stop o) :
    recvLoop (f :: rest) = o := by
  simp [recvLoop, h]

theorem recvLoop_complete_iff (u : String) (fs : List WSFrame) :
    recvLoop fs = LoopOutcome.complete u ↔
      ∃ pre f post, fs = pre ++ f :: post ∧
        (∀ g ∈ pre, frameStep g = LoopStep.next) ∧
        frameStep f = LoopStep.stop (LoopOutcome.complete u) := by
  induction fs with
  | nil =>
    constructor
    · intro h
      simp [recvLoop] at h
    · rintro ⟨pre, f, post, hfs, -, -⟩
      cases pre <;> simp at hfs
  | cons f rest ih =>
    constructor
    · intro h
      cases hs : frameStep f with
      | next =>
        rw [recvLoop_cons_next f rest hs] at h
        obtain ⟨pre, g, post, h1, h2, h3⟩ := ih.mp h
        refine ⟨f :: pre, g, post, by rw [h1]; rfl, ?_, h3⟩
        intro x hx
        rcases List.mem_cons.mp hx with hx | hx
        · rw [hx]; exact hs
        · exact h2 x hx
      | stop o =>
        rw [recvLoop_cons_stop f rest o hs] at h
        rw [h] at hs
        exact ⟨[], f, rest, rfl, by simp, hs⟩
    · rintro ⟨pre, g, post, hfs, hpre, hg⟩
      cases pre with
      | nil =>
        simp at hfs
        rw [hfs.1, hfs.2]
        exact recvLoop_cons_stop g post _ (hfs.1 ▸ hg)
      | cons p ps =>
        simp at hfs
        rw [hfs.1]
        rw [recvLoop_cons_next p rest (hpre p (by simp))]
        exact ih.mpr ⟨ps, g, post, hfs.2, fun x hx => hpre x (by simp [hx]), hg⟩

theorem frameStep_data_dict (dfields : List (String × Json)) :
    (if jsonTruthy (Json.obj dfields) = true then Json.obj dfields
     else Json.obj []) = Json.obj dfields := by
  cases dfields <;> simp [jsonTruthy]

/-- C3: in the EstablishedSession receive loop, malformed JSON text frames
are silently skipped; the call resolves exactly when a frame with type
"tts_complete" carrying a non-empty string `data.audio_url` arrives, and a
completion frame without such a field is an error; a frame with type
"error" fails the call carrying that frame's `data` field; and a close or
error of the connection before completion fails with a protocol-violation
error whose message differs from the timeout error's. -/
theorem ws_receive_loop_spec :
    (∀ rest, recvLoop (WSFrame.text none :: rest) = recvLoop rest) ∧
    (∀ fs u, recvLoop fs = LoopOutcome.complete u ↔
      ∃ pre f post, fs = pre ++ f :: post ∧
        (∀ g ∈ pre, frameStep g = LoopStep.next) ∧
        frameStep f = LoopStep.stop (LoopOutcome.complete u)) ∧
    (∀ fields dfields rest u,
      jsonLookup fields "type" = some (Json.str "tts_complete") →
      jsonLookup fields "data" = some (Json.obj dfields) →
      jsonLookup dfields "audio_url" = some (Json.str u) →
      u ≠ "" →
      recvLoop (WSFrame.text (some (Json.obj fields)) :: rest) =
        LoopOutcome.complete u) ∧
    (∀ fields dfields rest,
      jsonLookup fields "type" = some (Json.str "tts_complete") →
      jsonLookup fields "data" = some (Json.obj dfields) →
      (∀ s, jsonLookup dfields "audio_url" = some (Json.str s) → s = "") →
      recvLoop (WSFrame.text (some (Json.obj fields)) :: rest) =
        LoopOutcome.missingAudioUrl) ∧
    (∀ fields rest,
      jsonLookup fields "type" = some (Json.str "tts_complete") →
      jsonLookup fields "data" = none →
      recvLoop (WSFrame.text (some (Json.obj fields)) :: rest) =
        LoopOutcome.missingAudioUrl) ∧
    (∀ fields rest,
      jsonLookup fields "type" = some (Json.str "error") →
      recvLoop (WSFrame.text (some (Json.obj fields)) :: rest) =
        LoopOutcome.backendError (jsonLookup fields "data")) ∧
    (∀ d, loopResult (LoopOutcome.backendError d) =
      Except.error (TTSError.backendErr d)) ∧
    (∀ rest, recvLoop (WSFrame.close :: rest) =
      LoopOutcome.closedBeforeCompletion) ∧
    (∀ rest, recvLoop (WSFrame.wsError :: rest) = LoopOutcome.wsErrorFrame) ∧
    loopResult LoopOutcome.closedBeforeCompletion =
      Except.error TTSError.wsClosed ∧
    loopResult LoopOutcome.wsErrorFrame = Except.error TTSError.wsErrorRaised ∧
    errMsg TTSError.wsClosed ≠ errMsg TTSError.timedOut ∧
    errMsg TTSError.wsErrorRaised ≠ errMsg TTSError.timedOut := by
  refine ⟨?_, fun fs u => recvLoop_complete_iff u fs, ?_, ?_, ?_, ?_, ?_, ?_, ?_, rfl, rfl, ?_, ?_⟩
  · intro rest
    exact recvLoop_cons_next _ _ rfl
  · intro fields dfields rest u h1 h2 h3 h4
    have hu : u.data.isEmpty = false := by
      cases u with
      | mk l =>
        cases l with
        | nil => exact absurd rfl h4
        | cons c cs => rfl
    refine recvLoop_cons_stop _ _ _ ?_
    simp [frameStep, h1, h2, frameStep_data_dict, h3, hu]
  · intro fields dfields rest h1 h2 h3
    refine recvLoop_cons_stop _ _ _ ?_
    simp only [frameStep, h1, h2, frameStep_data_dict]
    cases ha : jsonLookup dfields "audio_url" with
    | none => simp
    | some j =>
      cases j with
      | str s =>
        have hs : s = "" := h3 s ha
        rw [hs]
        simp
      | null => simp
      | bool b => simp
      | num n => simp
      | arr items => simp
      | obj fs => simp
  · intro fields rest h1 h2
    refine recvLoop_cons_stop _ _ _ ?_
    simp [frameStep, h1, h2, jsonLookup]
  · intro fields rest h1
    refine recvLoop_cons_stop _ _ _ ?_
    simp [frameStep, h1]
  · intro d; rfl
  · intro rest
    exact recvLoop_cons_stop _ _ _ rfl
  · intro rest
    exact recvLoop_cons_stop _ _ _ rfl
  · intro h
    have := congrArg String.data h
    simp [errMsg] at this
  · intro h
    have := congrArg String.data h
    simp [errMsg] at this

/-- Witness for `ws_receive_loop_spec`: a single well-formed completion
frame carrying `/files/a.wav` resolves the loop with that URL. -/
theorem ws_receive_loop_spec_witness :
    recvLoop [WSFrame.text (some (Json.obj
      [("type", Json.str "tts_complete"),
       ("data", Json.obj [("audio_url", Json.str "/files/a.wav")])]))] =
      LoopOutcome.complete "/files/a.wav" :=
  ws_receive_loop_spec.2.2.1
    [("type", Json.str "tts_complete"),
     ("data", Json.obj [("audio_url", Json.str "/files/a.wav")])]
    [("audio_url", Json.str "/files/a.wav")] [] "/files/a.wav"
    rfl rfl rfl (by decide)

/-- A placeholder 200 response used by concrete witnesses. -/
def okResp : HttpResp :=
  { status := 200, body := "", contentType := none }

/-- A concrete server whose `/voices` endpoint answers with an empty voices
array, used by witnesses. -/
def emptyVoicesServer : Server :=
  { previewFromVoiceResp := fun _ _ => okResp,
    voicesResp := okResp,
    voicesJson := Json.obj [("voices", Json.arr [])],
    refAudioResp := fun _ => okResp,
    previewResp := okResp,
    wsFrames := [],
    audioResp := fun _ => okResp }

/-- A configuration record with no identifying field set, used by
witnesses. -/
def bareRecord : ConfigRecord :=
  { base_url := "http://h", voice_id := none, session_id := none,
    reference_audio_url := none, reference_transcription := none,
    voice_name := none }

/-- C4: in AutoSelect mode the client selects the first voices entry whose
`voice_id` is a non-empty string (no client-side sorting): given v1 then
v2 it chooses v1; and it fails with a distinct "no usable voice" error —
with no preview request issued — when the voices array is absent, empty,
or has no usable entry. -/
theorem auto_select_spec :
    defaultVoiceIdFromPayload
      (Json.obj [("voices", Json.arr
        [Json.obj [("voice_id", Json.str "v1")],
         Json.obj [("voice_id", Json.str "v2")]])]) = Except.ok "v1" ∧
    (∀ fields rest vid,
      jsonLookup fields "voice_id" = some (Json.str vid) →
      pyStrip vid ≠ "" →
      firstUsableVoiceId (Json.obj fields :: rest) = some (pyStrip vid)) ∧
    (∀ r msg srv, resolveMode r = Mode.AutoSelect →
      srv.voicesResp.status = 200 →
      srv.voicesJson = Json.obj [("voices", Json.arr [])] →
      (asyncGetTtsAudio r msg srv).result =
        Except.error TTSError.noSavedVoices ∧
      (asyncGetTtsAudio r msg srv).requests = [Request.getVoices]) ∧
    (∀ fields, jsonLookup fields "voices" = none →
      defaultVoiceIdFromPayload (Json.obj fields) =
        Except.error TTSError.noSavedVoices) ∧
    (∀ items, defaultVoiceIdFromPayload (Json.arr items) =
      Except.error TTSError.noSavedVoices) ∧
    (∀ fields items,
      jsonLookup fields "voices" = some (Json.arr items) →
      items ≠ [] →
      firstUsableVoiceId items = none →
      defaultVoiceIdFromPayload (Json.obj fields) =
        Except.error TTSError.noUsableVoiceId) ∧
    (∀ r msg srv e, resolveMode r = Mode.AutoSelect →
      getDefaultVoiceId srv = Except.error e →
      (asyncGetTtsAudio r msg srv).requests = [Request.getVoices] ∧
      (asyncGetTtsAudio r msg srv).result = Except.error e) := by
  refine ⟨?_, ?_, ?_, ?_, ?_, ?_, ?_⟩
  · rfl
  · intro fields rest vid h1 h2
    simp [firstUsableVoiceId, h1, h2]
  · intro r msg srv hmode hst hjson
    unfold asyncGetTtsAudio
    rw [hmode]
    have hdef : getDefaultVoiceId srv = Except.error TTSError.noSavedVoices := by
      unfold getDefaultVoiceId
      rw [if_neg (by rw [hst]; exact fun h => h rfl), hjson]
      rfl
    rw [hdef]
    exact ⟨rfl, rfl⟩
  · intro fields h1
    simp [defaultVoiceIdFromPayload, h1]
  · intro items
    rfl
  · intro fields items h1 h2 h3
    simp [defaultVoiceIdFromPayload, h1, h2, h3]
  · intro r msg srv e hmode hdef
    unfold asyncGetTtsAudio
    rw [hmode, hdef]
    exact ⟨rfl, rfl⟩

/-- Witness for `auto_select_spec`: with `/voices` answering an empty array,
the call fails with "no saved voices" and only the voices lookup was
issued. -/
theorem auto_select_spec_witness :
    (asyncGetTtsAudio bareRecord "hello" emptyVoicesServer).result =
      Except.error TTSError.noSavedVoices ∧
    (asyncGetTtsAudio bareRecord "hello" emptyVoicesServer).requests =
      [Request.getVoices] :=
  auto_select_spec.2.2.1 bareRecord "hello" emptyVoicesServer rfl rfl rfl

/-- C5: in the SavedVoice protocol a 404 yields the "voice not found"
error, distinguishable from the failure any other non-200 status yields,
which carries the status code and the first 200 characters of the body;
a 200 response yields the body as the audio bytes. -/
theorem saved_voice_http_spec (voice_id : String) (resp : HttpResp) :
    (resp.status = 404 →
      savedVoicePreview voice_id resp =
        Except.error (TTSError.voiceNotFound voice_id (pySlice 200 resp.body))) ∧
    (resp.status ≠ 404 → resp.status ≠ 200 →
      savedVoicePreview voice_id resp =
        Except.error (TTSError.previewFromVoiceFailed resp.status
          (pySlice 200 resp.body))) ∧
    (resp.status = 200 →
      savedVoicePreview voice_id resp = Except.ok resp.body) ∧
    (∀ vid d st d2,
      TTSError.voiceNotFound vid d ≠ TTSError.previewFromVoiceFailed st d2) ∧
    (∀ s, (pySlice 200 s).data.length ≤ 200) := by
  refine ⟨?_, ?_, ?_, ?_, ?_⟩
  · intro h
    simp [savedVoicePreview, h]
  · intro h1 h2
    simp [savedVoicePreview, h1, h2]
  · intro h
    simp [savedVoicePreview, h]
  · intro vid d st d2 h
    exact nomatch h
  · intro s
    simp [pySlice]

/-- Witness for `saved_voice_http_spec`: a 404 from preview-from-voice
yields the voice-not-found error with the truncated body, and a 500 yields
the generic preview-from-voice failure. -/
theorem saved_voice_http_spec_witness :
    savedVoicePreview "v" { status := 404, body := "nope", contentType := none } =
      Except.error (TTSError.voiceNotFound "v" "nope") ∧
    savedVoicePreview "v" { status := 500, body := "boom", contentType := none } =
      Except.error (TTSError.previewFromVoiceFailed 500 "boom") := by
  constructor
  · have h := (saved_voice_http_spec "v"
      { status := 404, body := "nope", contentType := none }).1 rfl
    rw [h]
    rfl
  · have h := (saved_voice_http_spec "v"
      { status := 500, body := "boom", contentType := none }).2.1
      (by decide) (by decide)
    rw [h]
    rfl

/-- C6: a timeout value of zero means the enclosing operation waits
indefinitely (an operation that would time out under a positive bound
instead completes), while any positive value bounds the operation; the
preview timeout constant is zero (unbounded), the download and health
timeouts are active. -/
theorem timeout_zero_unbounded :
    (∀ d : Int, timesOut 0 d = false) ∧
    (∀ s d : Int, 0 < s → (timesOut s d = true ↔ s < d)) ∧
    timesOut 0 6 = false ∧
    timesOut 5 6 = true ∧
    timeoutActive PREVIEW_TIMEOUT_SECONDS = false ∧
    timeoutActive DOWNLOAD_TIMEOUT_SECONDS = true ∧
    timeoutActive HEALTH_TIMEOUT_SECONDS = true := by
  refine ⟨?_, ?_, by decide, by decide, by decide, by decide, by decide⟩
  · intro d
    simp [timesOut, timeoutActive]
  · intro s d hs
    simp [timesOut, timeoutActive, hs.ne', hs]

/-- Witness for `timeout_zero_unbounded`: with a 5-second bound a 6-second
operation times out; with the zero bound the same operation does not. -/
theorem timeout_zero_unbounded_witness :
    timesOut 5 6 = true ∧ timesOut 0 6 = false :=
  ⟨(timeout_zero_unbounded.2.1 5 6 (by decide)).mpr (by decide),
   timeout_zero_unbounded.1 6⟩

/-- C7: an `audio_url` beginning with http:// or https:// is fetched
directly; any other is resolved relative to `base_url`; in particular
"/files/a.wav" resolves to `base_url` (trailing slashes stripped) ++
"/files/a.wav". -/
theorem audio_url_resolution (base u : String) :
    (pyStartsWith u "http://" = true → resolveAudioUrl base u = u) ∧
    (pyStartsWith u "https://" = true → resolveAudioUrl base u = u) ∧
    (pyStartsWith u "http://" = false → pyStartsWith u "https://" = false →
      resolveAudioUrl base u = pyRStrip '/' base ++ "/" ++ pyLStrip '/' u) ∧
    resolveAudioUrl base "/files/a.wav" = pyRStrip '/' base ++ "/files/a.wav" := by
  refine ⟨?_, ?_, ?_, ?_⟩
  · intro h
    simp [resolveAudioUrl, h]
  · intro h
    simp [resolveAudioUrl, h]
  · intro h1 h2
    simp [resolveAudioUrl, h1, h2]
  · rw [show resolveAudioUrl base "/files/a.wav" =
        pyRStrip '/' base ++ "/" ++ pyLStrip '/' "/files/a.wav" from by
      simp [resolveAudioUrl, pyStartsWith]]
    rw [show pyLStrip '/' "/files/a.wav" = "files/a.wav" from rfl]
    rw [String.append_assoc]
    rfl

/-- Witness for `audio_url_resolution`: an absolute URL is used directly;
the relative "/files/a.wav" against "http://h" resolves to
"http://h/files/a.wav". -/
theorem audio_url_resolution_witness :
    resolveAudioUrl "http://h" "https://cdn/x.wav" = "https://cdn/x.wav" ∧
    resolveAudioUrl "http://h" "/files/a.wav" = "http://h/files/a.wav" := by
  constructor
  · exact (audio_url_resolution "http://h" "https://cdn/x.wav").2.1 (by decide)
  · rw [(audio_url_resolution "http://h" "/files/a.wav").2.2.2]
    rfl

/-- C8: the message-connection URL maps scheme http to ws and https to wss;
any other scheme yields the configuration error, and in that case the
EstablishedSession call issues no request at all (the error precedes any
network call). -/
theorem ws_scheme_mapping :
    (∀ base path, urlScheme base = "http" →
      wsUrlFromHttp base path =
        Except.ok (pyRStrip '/' ("ws" ++ ⟨base.data.drop 4⟩) ++ "/" ++
          pyLStrip '/' path)) ∧
    (∀ base path, urlScheme base = "https" →
      wsUrlFromHttp base path =
        Except.ok (pyRStrip '/' ("wss" ++ ⟨base.data.drop 5⟩) ++ "/" ++
          pyLStrip '/' path)) ∧
    (∀ base path, urlScheme base ≠ "http" → urlScheme base ≠ "https" →
      wsUrlFromHttp base path =
        Except.error (TTSError.invalidScheme (urlScheme base))) ∧
    (∀ r msg srv sid, resolveMode r = Mode.EstablishedSession sid →
      urlScheme r.base_url ≠ "http" → urlScheme r.base_url ≠ "https" →
      (asyncGetTtsAudio r msg srv).requests = [] ∧
      (asyncGetTtsAudio r msg srv).result =
        Except.error (TTSError.invalidScheme (urlScheme r.base_url))) := by
  have harm3 : ∀ base path, urlScheme base ≠ "http" → urlScheme base ≠ "https" →
      wsUrlFromHttp base path =
        Except.error (TTSError.invalidScheme (urlScheme base)) := by
    intro base path h1 h2
    simp [wsUrlFromHttp, h1, h2]
  refine ⟨?_, ?_, harm3, ?_⟩
  · intro base path h
    have hlen : (urlScheme base).data.length = 4 := by rw [h]; rfl
    simp [wsUrlFromHttp, h, hlen]
  · intro base path h
    have hlen : (urlScheme base).data.length = 5 := by rw [h]; rfl
    simp [wsUrlFromHttp, h, hlen]
  · intro r msg srv sid hmode h1 h2
    have hws := harm3 r.base_url "/ws" h1 h2
    unfold asyncGetTtsAudio
    rw [hmode]
    simp [generatePreview, hws]

/-- Witness for `ws_scheme_mapping`: an ftp base URL is rejected with the
configuration error naming the scheme. -/
theorem ws_scheme_mapping_witness :
    wsUrlFromHttp "ftp://h" "/ws" =
      Except.error (TTSError.invalidScheme "ftp") ∧
    wsUrlFromHttp "http://h" "/ws" = Except.ok "ws://h/ws" ∧
    wsUrlFromHttp "https://h" "/ws" = Except.ok "wss://h/ws" := by
  refine ⟨?_, ?_, ?_⟩
  · have h := ws_scheme_mapping.2.2.1 "ftp://h" "/ws"
      (by intro hh; exact absurd (congrArg String.data hh) (by decide))
      (by intro hh; exact absurd (congrArg String.data hh) (by decide))
    rw [h]
    rfl
  · have h := ws_scheme_mapping.1 "http://h" "/ws" (by rfl)
    rw [h]
    rfl
  · have h := ws_scheme_mapping.2.1 "https://h" "/ws" (by rfl)
    rw [h]
    rfl

/-- C9: in AdHocReference mode the transcription field of the outgoing
multipart form always equals the configured `reference_transcription`
after trimming (the empty string when unset); an empty trimmed
transcription produces the warning, not a failure, and the preview POST is
still issued and can succeed. -/
theorem adhoc_transcription_spec (r : ConfigRecord) (msg : String) (srv : Server) :
    (optTruthy r.reference_audio_url = true →
      (srv.refAudioResp (orEmpty r.reference_audio_url)).status = 200 →
      (generatePreviewHttp r msg srv).2.1 =
        [Request.getReferenceAudio (orEmpty r.reference_audio_url),
         Request.postPreview
           { audioBytes := (srv.refAudioResp (orEmpty r.reference_audio_url)).body,
             audioFilename := "reference.wav",
             audioContentType :=
               contentTypeOr (srv.refAudioResp (orEmpty r.reference_audio_url)).contentType,
             transcription := pyStrip (orEmpty r.reference_transcription),
             response_text := msg }]) ∧
    (pyStrip (orEmpty r.reference_transcription) = "" →
      (generatePreviewHttp r msg srv).1 = [noTranscriptionWarning]) ∧
    (pyStrip (orEmpty r.reference_transcription) ≠ "" →
      (generatePreviewHttp r msg srv).1 = []) ∧
    (optTruthy r.reference_audio_url = true →
      (srv.refAudioResp (orEmpty r.reference_audio_url)).status = 200 →
      srv.previewResp.status = 200 →
      (generatePreviewHttp r msg srv).2.2 = Except.ok srv.previewResp.body) := by
  refine ⟨?_, ?_, ?_, ?_⟩
  · intro ht hs
    have hdl : downloadReferenceAudio r srv =
        ([Request.getReferenceAudio (orEmpty r.reference_audio_url)],
         Except.ok ((srv.refAudioResp (orEmpty r.reference_audio_url)).body,
           contentTypeOr (srv.refAudioResp (orEmpty r.reference_audio_url)).contentType)) := by
      simp [downloadReferenceAudio, ht, hs]
    simp [generatePreviewHttp, hdl]
  · intro he
    rcases hdl : downloadReferenceAudio r srv with ⟨reqs, res⟩
    cases res <;> simp [generatePreviewHttp, hdl, he]
  · intro hne
    rcases hdl : downloadReferenceAudio r srv with ⟨reqs, res⟩
    cases res <;> simp [generatePreviewHttp, hdl, hne]
  · intro ht hs hp
    have hdl : downloadReferenceAudio r srv =
        ([Request.getReferenceAudio (orEmpty r.reference_audio_url)],
         Except.ok ((srv.refAudioResp (orEmpty r.reference_audio_url)).body,
           contentTypeOr (srv.refAudioResp (orEmpty r.reference_audio_url)).contentType)) := by
      simp [downloadReferenceAudio, ht, hs]
    simp [generatePreviewHttp, hdl, hp]

/-- A configuration record in ad-hoc-reference mode with no transcription,
used by witnesses. -/
def adHocRecord : ConfigRecord :=
  { base_url := "http://h", voice_id := none, session_id := none,
    reference_audio_url := some "http://files/ref.wav",
    reference_transcription := none, voice_name := none }

/-- A concrete server for the ad-hoc-reference witness: the reference
download answers 200 with an mpeg payload, the preview POST answers 200
with the synthesized audio. -/
def adHocServer : Server :=
  { previewFromVoiceResp := fun _ _ => okResp,
    voicesResp := okResp,
    voicesJson := Json.null,
    refAudioResp := fun _ =>
      { status := 200, body := "REF", contentType := some "audio/mpeg" },
    previewResp := { status := 200, body := "WAV", contentType := none },
    wsFrames := [],
    audioResp := fun _ => okResp }

/-- Witness for `adhoc_transcription_spec`: with no transcription
configured, the form carries the empty transcription, the warning is
logged, and the preview still succeeds. -/
theorem adhoc_transcription_spec_witness :
    (generatePreviewHttp adHocRecord "hi" adHocServer).2.1 =
      [Request.getReferenceAudio "http://files/ref.wav",
       Request.postPreview
         { audioBytes := "REF", audioFilename := "reference.wav",
           audioContentType := "audio/mpeg", transcription := "",
           response_text := "hi" }] ∧
    (generatePreviewHttp adHocRecord "hi" adHocServer).1 =
      [noTranscriptionWarning] ∧
    (generatePreviewHttp adHocRecord "hi" adHocServer).2.2 = Except.ok "WAV" := by
  refine ⟨?_, ?_, ?_⟩
  · have h := (adhoc_transcription_spec adHocRecord "hi" adHocServer).1 rfl rfl
    rw [h]
    rfl
  · exact (adhoc_transcription_spec adHocRecord "hi" adHocServer).2.1 rfl
  · exact (adhoc_transcription_spec adHocRecord "hi" adHocServer).2.2.2 rfl rfl rfl

/-- C10: no synthesize call mutates any configuration field of the
instance — the record after the call is the record before it, field by
field, whatever mode ran and whether it succeeded or failed — so repeated
calls on an unchanged record resolve to the same mode. -/
theorem synthesize_preserves_record (r : ConfigRecord) (msg : String) (srv : Server) :
    (asyncGetTtsAudio r msg srv).record = r ∧
    (asyncGetTtsAudio r msg srv).record.base_url = r.base_url ∧
    (asyncGetTtsAudio r msg srv).record.voice_id = r.voice_id ∧
    (asyncGetTtsAudio r msg srv).record.session_id = r.session_id ∧
    (asyncGetTtsAudio r msg srv).record.reference_audio_url =
      r.reference_audio_url ∧
    (asyncGetTtsAudio r msg srv).record.reference_transcription =
      r.reference_transcription ∧
    (asyncGetTtsAudio r msg srv).record.voice_name = r.voice_name ∧
    resolveMode ((asyncGetTtsAudio r msg srv).record) = resolveMode r := by
  have h : (asyncGetTtsAudio r msg srv).record = r := by
    unfold asyncGetTtsAudio
    split <;> try rfl
    all_goals split <;> try rfl
    all_goals split <;> rfl
  exact ⟨h, by rw [h], by rw [h], by rw [h], by rw [h], by rw [h], by rw [h],
    by rw [h]⟩

end QwenTTS
